import Mathlib

/-!
Verification of the POS-backend payment and stock bookkeeping logic.

The definitions below are a shallow embedding of the TypeScript routes:
  * `payBilling`    embeds `router.post("/:id/pay")` of `routes/billing.ts`
    (the billing-PDF payment endpoint).
  * `payInvoice`    embeds `router.post("/:id/pay")` of the invoice router.
JavaScript numbers are modelled by `JNum`: NaN, the two infinities, and
finite values as rationals.  The claims under verification are about
clamping, comparison and branching, none of which depend on binary
floating-point rounding, so rationals are a faithful carrier for the
finite case.
-/

namespace POS

/-- A JavaScript number: NaN, +Infinity, -Infinity, or a finite value. -/
inductive JNum where
  | nan : JNum
  | inf : JNum
  | ninf : JNum
  | fin : ℚ → JNum
  deriving DecidableEq, Repr

namespace JNum

/-- JavaScript `Number.isNaN`. -/
def isNaN : JNum → Bool
  | .nan => true
  | _ => false

/-- JavaScript `Number.isFinite`. -/
def isFinite : JNum → Bool
  | .fin _ => true
  | _ => false

/-- JavaScript unary minus. -/
def neg : JNum → JNum
  | .nan => .nan
  | .inf => .ninf
  | .ninf => .inf
  | .fin q => .fin (-q)

/-- JavaScript `+` on numbers. -/
def add : JNum → JNum → JNum
  | .nan, _ => .nan
  | _, .nan => .nan
  | .inf, .ninf => .nan
  | .ninf, .inf => .nan
  | .inf, _ => .inf
  | _, .inf => .inf
  | .ninf, _ => .ninf
  | _, .ninf => .ninf
  | .fin a, .fin b => .fin (a + b)

/-- JavaScript `-` on numbers. -/
def sub (a b : JNum) : JNum := a.add b.neg

/-- JavaScript `<` on numbers (false whenever an operand is NaN). -/
def ltb : JNum → JNum → Bool
  | .nan, _ => false
  | _, .nan => false
  | _, .ninf => false
  | .ninf, _ => true
  | .inf, _ => false
  | _, .inf => true
  | .fin a, .fin b => a < b

/-- JavaScript `<=` on numbers (false whenever an operand is NaN). -/
def leb : JNum → JNum → Bool
  | .nan, _ => false
  | _, .nan => false
  | .ninf, _ => true
  | _, .ninf => false
  | _, .inf => true
  | .inf, _ => false
  | .fin a, .fin b => a ≤ b

/-- JavaScript `Math.min` on two numbers. -/
def jmin (a b : JNum) : JNum :=
  if a.isNaN || b.isNaN then .nan else if a.leb b then a else b

/-- JavaScript `x || 0` on a number: NaN and 0 are falsy and give 0,
everything else is returned unchanged (`0 || 0 = 0`, so on non-NaN
numbers this is the identity). -/
def orZero : JNum → JNum
  | .nan => .fin 0
  | x => x

/-- Does the value fit a Prisma `Int` column (an integer-valued number)?
Prisma rejects NaN, infinities and fractional values for `Int` fields. -/
def isIntValue : JNum → Bool
  | .fin q => q.den = 1
  | _ => false

end JNum

/-! ## Billing-PDF payment endpoint (`routes/billing.ts`, POST /:id/pay) -/

/-- A row of the `billing_pdfs` table, the fields read or written by the
pay endpoint.  `amountPaid` is nullable on old rows (the code guards with
`invoice.amountPaid ?? 0`); `paidAtSet` records whether `paidAt` is a
timestamp (`true`) or SQL NULL (`false`). -/
structure BillingRecord where
  cost : JNum
  amountPaid : Option JNum
  paidAtSet : Bool
  deriving DecidableEq, Repr

/-- Column list of the `billing_pdfs` table, from the migration
`add_payment_tracking_to_billing_pdf` (CREATE TABLE "billing_pdfs"). -/
def billingPdfsColumns : List String :=
  ["id", "orderId", "invoiceNo", "cost", "amountPaid", "paidAt", "pdf", "createdAt"]

/-- The keys of the `data` object passed to `prisma.billingPDF.update`
by the pay endpoint. -/
def payBillingUpdateKeys : List String := ["amountPaid", "paidAt"]

/-- The expression `Number(invoice.amountPaid ?? 0)` — the current paid amount with the
null guard from the source. -/
def currentPaidOf (rec : BillingRecord) : JNum := rec.amountPaid.getD (.fin 0)

/-- Outcome of the billing pay endpoint: 400 invalid amount, 500 corrupted
data, or 200 with the updated row, response message and `remaining`. -/
inductive PayBillingResult where
  | badRequest : String → PayBillingResult
  | serverError : String → PayBillingResult
  | ok : BillingRecord → String → JNum → PayBillingResult
  deriving DecidableEq, Repr

/-- Did the endpoint accept the payment (HTTP 200)? -/
def PayBillingResult.isOk : PayBillingResult → Bool
  | .ok _ _ _ => true
  | _ => false

/-- Endpoint `POST /billing/:id/pay` on a found record.  `amount` is the request
body's `amount` already coerced by `Number(...)` (the identity on number
values; JSON literals such as `1e400` parse to Infinity). -/
def payBilling (rec : BillingRecord) (amount : JNum) : PayBillingResult :=
  let paymentAmount := amount
  if paymentAmount.isNaN || paymentAmount.leb (.fin 0) then
    .badRequest ("Invalid payment amount")
  else
    let currentPaid := currentPaidOf rec
    let totalCost := rec.cost
    if currentPaid.isNaN || totalCost.isNaN then
      .serverError ("Corrupted invoice data")
    else
      let newPaidAmount := JNum.jmin (currentPaid.add paymentAmount) totalCost
      let isFullyPaid := totalCost.leb newPaidAmount
      .ok { rec with amountPaid := some newPaidAmount, paidAtSet := isFullyPaid }
        (if isFullyPaid then "Paid in full!" else "Payment recorded")
        (totalCost.sub newPaidAmount)

/-- The stored row after a pay request: updated on acceptance, untouched
when the request is rejected (no database write happens on the 400/500
paths). -/
def billingAfterPay (rec : BillingRecord) (amount : JNum) : BillingRecord :=
  match payBilling rec amount with
  | .ok rec2 _ _ => rec2
  | _ => rec

/-! ## Invoice payment endpoint (invoice router, POST /:id/pay) -/

/-- An `Invoice` row: `paidAmount` and `total` are `Decimal` columns
(read through `.toNumber()`), `status` is the TEXT status column. -/
structure Invoice where
  paidAmount : JNum
  total : JNum
  status : String
  deriving DecidableEq, Repr

/-- Outcome of the invoice pay endpoint. -/
inductive PayInvoiceResult where
  | badRequest : String → PayInvoiceResult
  | ok : Invoice → PayInvoiceResult
  deriving DecidableEq, Repr

def PayInvoiceResult.isOk : PayInvoiceResult → Bool
  | .ok _ => true
  | _ => false

/-- Endpoint `POST /invoices/:id/pay` on a found record.  `amount` is the body's
`amount` after `parseFloat` (the identity on number values). -/
def payInvoice (inv : Invoice) (amount : JNum) : PayInvoiceResult :=
  let paymentAmount := amount
  if paymentAmount.isNaN || paymentAmount.leb (.fin 0) then
    .badRequest ("Invalid amount")
  else
    let newPaid := inv.paidAmount.add paymentAmount
    let total := inv.total
    let isPaid := total.leb newPaid
    .ok { inv with
      paidAmount := if total.ltb newPaid then total else newPaid,
      status := if isPaid then "PAID" else if (JNum.fin 0).ltb newPaid then "PARTIALLY_PAID" else "PENDING" }

/-- The stored invoice after a pay request (unchanged on rejection). -/
def invoiceAfterPay (inv : Invoice) (amount : JNum) : Invoice :=
  match payInvoice inv amount with
  | .ok inv2 => inv2
  | _ => inv

/-! ## JavaScript scalar values and `Number` coercion

Request-body values for the numeric product fields are arbitrary JSON
scalars; `JVal` models them (undefined, null, booleans, numbers,
strings). -/

/-- A JavaScript scalar value as it arrives in a parsed request body. -/
inductive JVal where
  | undef : JVal
  | jnull : JVal
  | jbool : Bool → JVal
  | jnum : JNum → JVal
  | jstr : String → JVal
  deriving DecidableEq, Repr

/-- Numeric value of a digit list (most significant first). -/
def digitsVal (ds : List Char) : ℕ :=
  ds.foldl (fun a c => a * 10 + (c.toNat - 48)) 0

/-- Parse a signed decimal literal (`-12`, `3.5`, `.5`, `7.`), the forms
of JavaScript string-to-number conversion exercised here (exponents and
hex literals are not modelled; unmodelled forms land in the NaN case of
`jsParseNum`, on the same side as every malformed string). -/
def parseDecimal (cs : List Char) : Option ℚ :=
  let signAndRest : ℤ × List Char :=
    match cs with
    | '-' :: r => (-1, r)
    | '+' :: r => (1, r)
    | r => (1, r)
  let sign := signAndRest.1
  let r0 := signAndRest.2
  let ip := r0.takeWhile Char.isDigit
  let r1 := r0.dropWhile Char.isDigit
  match r1 with
  | [] => if ip.isEmpty then none else some (sign * (digitsVal ip : ℚ))
  | '.' :: r2 =>
    let fp := r2.takeWhile Char.isDigit
    let r3 := r2.dropWhile Char.isDigit
    if !r3.isEmpty then none
    else if ip.isEmpty && fp.isEmpty then none
    else some (sign * ((digitsVal ip : ℚ) + (digitsVal fp : ℚ) / (10 : ℚ) ^ fp.length))
  | _ => none

/-- JavaScript `Number(string)`: trimmed empty string is 0, `Infinity`
forms are infinite, a decimal literal is its value, anything else NaN.
(Whitespace trimming is spelled out on the character list.) -/
def jsParseNum (s : String) : JNum :=
  let t := ((s.toList.dropWhile Char.isWhitespace).reverse.dropWhile Char.isWhitespace).reverse
  if t = [] then .fin 0
  else if t = "Infinity".toList || t = "+Infinity".toList then .inf
  else if t = "-Infinity".toList then .ninf
  else match parseDecimal t with
    | some q => .fin q
    | none => .nan

/-- JavaScript `Number(v)` on a scalar value. -/
def jsToNumber : JVal → JNum
  | .undef => .nan
  | .jnull => .fin 0
  | .jbool b => .fin (if b then 1 else 0)
  | .jnum n => n
  | .jstr s => jsParseNum s

/-- JavaScript truthiness of a scalar value. -/
def JVal.truthy : JVal → Bool
  | .undef => false
  | .jnull => false
  | .jbool b => b
  | .jnum .nan => false
  | .jnum (.fin q) => q ≠ 0
  | .jnum _ => true
  | .jstr s => s ≠ ""

/-- Helper `toNumberSafe` from `routes/products.ts` with the default fallback 0:
undefined, null and the empty string give 0; otherwise `Number(v)` if it
is finite, else 0. -/
def toNumberSafe (v : JVal) : ℚ :=
  if v = .undef || v = .jnull || v = .jstr "" then 0
  else match jsToNumber v with
    | .fin q => q
    | _ => 0

/-- JavaScript `a || b` on strings: the empty string is falsy. -/
def jsOrStr (a b : String) : String := if a = "" then b else a

/-- JavaScript `String(v)` on a scalar.  Identity on strings (the only
case the claims exercise); numbers use the integer print form when
integral (matching JavaScript) and the rational print form otherwise. -/
def jsStringOf : JVal → String
  | .jstr s => s
  | .jnull => "null"
  | .undef => "undefined"
  | .jbool true => "true"
  | .jbool false => "false"
  | .jnum .nan => "NaN"
  | .jnum .inf => "Infinity"
  | .jnum .ninf => "-Infinity"
  | .jnum (.fin q) => if q.den = 1 then toString q.num else toString q

/-- JavaScript `String(v || "")`: falsy values give the empty string. -/
def jsOrEmptyStr (v : JVal) : String :=
  if v.truthy then jsStringOf v else ""

/-! ## Product rows and the stock endpoints (`routes/products.ts`)

A `Product` row follows the Prisma schema: `stock` and `needToOrder` are
`Int` columns (so integers), `price` is a float column, `inputcost` a
`Decimal`, `vendors`/`images` are `TEXT[]`, `createdAt`/`deletedAt`
timestamps (modelled as abstract instants). -/

structure Product where
  id : ℕ
  name : String
  style : String
  sku : String
  description : String
  categories : String
  price : ℚ
  inputcost : ℚ
  stock : ℤ
  needToOrder : ℤ
  vendors : List String
  images : List String
  billing : Option Bool
  createdAt : ℕ
  deletedAt : Option ℕ
  deriving DecidableEq, Repr

/-- One entry of the `items` array of the stock endpoints. -/
structure StockItem where
  sku : String
  qty : JNum
  deriving DecidableEq, Repr

/-- Lookup `prisma.product.findFirst({ where: { sku } })`. -/
def findBySku (db : List Product) (sku : String) : Option Product :=
  db.find? (fun p => p.sku = sku)

/-- Write `prisma.product.update({ where: { id }, data: { stock: v } })`:
succeeds only when `v` fits the `Int` column, otherwise Prisma throws
(`none`, surfaced as a 500 by the route's catch block). -/
def writeStock (db : List Product) (pid : ℕ) (v : JNum) : Option (List Product) :=
  match v with
  | .fin q =>
    if q.den = 1 then
      some (db.map (fun r => if r.id = pid then { r with stock := q.num } else r))
    else none
  | _ => none

/-- Response of a stock-adjustment endpoint. -/
inductive StockResp where
  | ok : String → StockResp
  | noItems : StockResp
  | badItem : String → StockResp
  | notFound : String → StockResp
  | insufficient : String → StockResp
  | serverError : String → StockResp
  deriving DecidableEq, Repr

/-- The HTTP status the route attaches to each response. -/
def StockResp.status : StockResp → ℕ
  | .ok _ => 200
  | .noItems => 400
  | .badItem _ => 400
  | .notFound _ => 404
  | .insufficient _ => 400
  | .serverError _ => 500

/-- The 404 message for a missing SKU. -/
def skuNotFoundMsg (sku : String) : String :=
  "Product with SKU \"" ++ sku ++ "\" not found"

/-- The 400 message for an insufficient-stock failure: it names
`product.sku || product.name` and nothing else. -/
def insufficientMsg (p : Product) : String :=
  "Insufficient stock for \"" ++ jsOrStr p.sku p.name ++ "\""

/-- The sequential loop of `PATCH /products/decrement-stock`: find by
SKU, fail 404 if absent, fail 400 if `(stock || 0) < qty`, otherwise
write `stock - qty` and continue; a throwing write aborts with 500.
Every failure returns the database as already mutated by earlier
items. -/
def decrementLoop (db : List Product) : List StockItem → StockResp × List Product
  | [] => (.ok ("Stock decremented successfully"), db)
  | item :: rest =>
    match findBySku db item.sku with
    | none => (.notFound (skuNotFoundMsg item.sku), db)
    | some p =>
      if ((JNum.fin (p.stock : ℚ)).orZero).ltb item.qty then
        (.insufficient (insufficientMsg p), db)
      else
        match writeStock db p.id (((JNum.fin (p.stock : ℚ)).orZero).sub item.qty) with
        | none => (.serverError ("Failed to decrement product stock"), db)
        | some db2 => decrementLoop db2 rest

/-- Endpoint `PATCH /products/decrement-stock`: rejects an empty items list, then
runs the sequential loop. -/
def decrementStock (db : List Product) (items : List StockItem) : StockResp × List Product :=
  if items.isEmpty then (.noItems, db) else decrementLoop db items

/-- The sequential loop of `PATCH /products/increment-stock`: identical
to the decrement loop but with no shortage check and `stock + qty`. -/
def incrementLoop (db : List Product) : List StockItem → StockResp × List Product
  | [] => (.ok ("Stock incremented successfully"), db)
  | item :: rest =>
    match findBySku db item.sku with
    | none => (.notFound (skuNotFoundMsg item.sku), db)
    | some p =>
      match writeStock db p.id (((JNum.fin (p.stock : ℚ)).orZero).add item.qty) with
      | none => (.serverError ("Failed to increment product stock"), db)
      | some db2 => incrementLoop db2 rest

/-- Endpoint `PATCH /products/increment-stock`. -/
def incrementStock (db : List Product) (items : List StockItem) : StockResp × List Product :=
  if items.isEmpty then (.noItems, db) else incrementLoop db items

/-- One entry of the `items` array of the style+SKU increment endpoint. -/
structure StyleStockItem where
  style : String
  sku : String
  qty : JNum
  deriving DecidableEq, Repr

/-- The loop of `PATCH /products/increment-stock-by-style-sku`: validates
that style and sku are truthy, finds by trimmed style and sku, then
writes `(stock || 0) + Number(qty || 0)`. -/
def incrementByStyleLoop (db : List Product) : List StyleStockItem → StockResp × List Product
  | [] => (.ok ("Stock updated by style + SKU"), db)
  | item :: rest =>
    if item.style = "" || item.sku = "" then
      (.badItem ("Missing style or sku in an item"), db)
    else
      match db.find? (fun p => p.style = item.style.trim && p.sku = item.sku.trim) with
      | none => (.notFound ("Product not found: " ++ item.style ++ " / " ++ item.sku), db)
      | some p =>
        match writeStock db p.id (((JNum.fin (p.stock : ℚ)).orZero).add item.qty.orZero) with
        | none => (.serverError ("Failed to update stock"), db)
        | some db2 => incrementByStyleLoop db2 rest

/-- Endpoint `PATCH /products/increment-stock-by-style-sku`. -/
def incrementStockByStyleSku (db : List Product) (items : List StyleStockItem) :
    StockResp × List Product :=
  if items.isEmpty then (.noItems, db) else incrementByStyleLoop db items

/-- The stock of the product a SKU resolves to (the view the endpoints
themselves use). -/
def stockOf (db : List Product) (sku : String) : Option ℤ :=
  (findBySku db sku).map (fun p => p.stock)

/-! ## Change-log recorder and the product mutation endpoints

The change diff compares `updatedProduct[key] !== oldProduct[key]` for
every key of the row.  `!==` is value comparison on JavaScript
primitives (strings, numbers, booleans, null) but reference comparison
on objects; the old and updated rows come from two separate Prisma
queries, which materialise fresh array / `Decimal` / `Date` objects, so
object-typed fields are never reference-equal.  `FVal` records each
field value together with its runtime kind. -/

/-- A product field value as Prisma materialises it in JavaScript. -/
inductive FVal where
  | str : String → FVal
  | num : ℚ → FVal
  | boolv : Bool → FVal
  | nullv : FVal
  | arr : List String → FVal
  | dec : ℚ → FVal
  | date : ℕ → FVal
  deriving DecidableEq, Repr

/-- Is the value an object (array, `Decimal`, `Date`)? -/
def FVal.isObjKind : FVal → Bool
  | .arr _ => true
  | .dec _ => true
  | .date _ => true
  | _ => false

/-- Comparison `a !== b` for field values taken from two distinct query results:
value inequality on primitives, always true on object kinds (fresh
references), true across differing kinds. -/
def jsNeqFresh : FVal → FVal → Bool
  | .str x, .str y => x ≠ y
  | .num x, .num y => x ≠ y
  | .boolv x, .boolv y => x ≠ y
  | .nullv, .nullv => false
  | .arr _, .arr _ => true
  | .dec _, .dec _ => true
  | .date _, .date _ => true
  | _, _ => true

/-- Enumeration `Object.keys(product)` with each field's value. -/
def productFields (p : Product) : List (String × FVal) :=
  [("id", .num (p.id : ℚ)),
   ("name", .str p.name),
   ("style", .str p.style),
   ("sku", .str p.sku),
   ("description", .str p.description),
   ("categories", .str p.categories),
   ("price", .num p.price),
   ("inputcost", .dec p.inputcost),
   ("stock", .num (p.stock : ℚ)),
   ("needToOrder", .num (p.needToOrder : ℚ)),
   ("vendors", .arr p.vendors),
   ("images", .arr p.images),
   ("billing", match p.billing with | some b => .boolv b | none => .nullv),
   ("createdAt", .date p.createdAt),
   ("deletedAt", match p.deletedAt with | some t => .date t | none => .nullv)]

/-- The `changes` object of the update route: every key of the updated
row whose value is `!==` the old row's value, recorded as an
(key, old, new) entry. -/
def diffChanges (a b : Product) : List (String × FVal × FVal) :=
  ((productFields a).zip (productFields b)).filterMap
    (fun x => if jsNeqFresh x.1.2 x.2.2 then some (x.1.1, x.1.2, x.2.2) else none)

/-- What a change-log row carries: the full field map on create, the
diff pairs on update, the empty object on delete. -/
inductive LogPayload where
  | fields : List (String × FVal) → LogPayload
  | pairs : List (String × FVal × FVal) → LogPayload
  deriving DecidableEq, Repr

/-- A `ProductChangeLog` row. -/
structure LogRow where
  productId : ℕ
  action : String
  payload : LogPayload
  deriving DecidableEq, Repr

/-- Response of the product mutation endpoints. -/
inductive ProdResp where
  | okProduct : Product → ProdResp
  | okMsg : String → ProdResp
  | badRequest : String → ProdResp
  | notFound : String → ProdResp
  | serverError : String → ProdResp
  deriving DecidableEq, Repr

/-- The vendors body value: a JSON array (whose elements the code turns
into trimmed strings) or a scalar split on commas. -/
inductive VendorsIn where
  | varr : List String → VendorsIn
  | vscalar : JVal → VendorsIn
  deriving DecidableEq, Repr

/-- JavaScript truthiness of a vendors value (arrays are always truthy). -/
def VendorsIn.truthy : VendorsIn → Bool
  | .varr _ => true
  | .vscalar v => v.truthy

/-- Helper `normalizeVendors` from `routes/products.ts`. -/
def normalizeVendors : VendorsIn → List String
  | .varr xs => (xs.map String.trim).filter (fun s => s ≠ "")
  | .vscalar v =>
    if v.truthy = false then []
    else (((jsStringOf v).splitOn ",").map String.trim).filter (fun s => s ≠ "")

/-- Body of `PUT /products/:id`.  String fields use `?? undefined`, so
null and undefined both mean "absent" (`none`); the numeric fields are
included whenever the body key is present (`!== undefined`), even when
null; vendors passes through a truthiness check; uploaded images arrive
as sanitised filenames. -/
structure PutBody where
  name : Option String
  price : Option JVal
  style : Option String
  inputcost : Option JVal
  sku : Option String
  description : Option String
  categories : Option String
  stock : Option JVal
  vendors : Option VendorsIn
  newImages : List String
  deriving DecidableEq, Repr

/-- The row produced by `prisma.product.update` for the PUT route's
`data` object (absent keys keep the old column value; new uploads append
to the existing image list). -/
def applyPut (oldP : Product) (body : PutBody) : Product :=
  { oldP with
    name := body.name.getD oldP.name,
    price := (body.price.map toNumberSafe).getD oldP.price,
    style := body.style.getD oldP.style,
    inputcost := (body.inputcost.map toNumberSafe).getD oldP.inputcost,
    sku := body.sku.getD oldP.sku,
    description := body.description.getD oldP.description,
    categories := body.categories.getD oldP.categories,
    stock := ((body.stock.map toNumberSafe).map (fun q => q.num)).getD oldP.stock,
    vendors :=
      (match body.vendors with
       | none => none
       | some v => if v.truthy then some (normalizeVendors v) else none).getD oldP.vendors,
    images := (if body.newImages.isEmpty then none
               else some (oldP.images ++ body.newImages)).getD oldP.images }

/-- Does the stock value of the PUT body fit the `Int` column?  When it
does not, `prisma.product.update` throws and the route answers 500
without logging. -/
def putStockWriteOk (body : PutBody) : Bool :=
  match body.stock.map toNumberSafe with
  | some q => q.den = 1
  | none => true

/-- Endpoint `PUT /products/:id`.  `logOk` tells whether the change-log insert
succeeds; the helper catches its failure, so the flag must not influence
the response or the database.  Returns (response, database, appended log
rows). -/
def putProduct (db : List Product) (pid : ℕ) (body : PutBody) (logOk : Bool) :
    ProdResp × List Product × List LogRow :=
  match db.find? (fun p => p.id = pid) with
  | none => (.notFound ("Product not found"), db, [])
  | some oldP =>
    if putStockWriteOk body then
      let updated := applyPut oldP body
      let db2 := db.map (fun r => if r.id = pid then updated else r)
      let changes := diffChanges oldP updated
      (.okProduct updated, db2,
        if logOk then [{ productId := updated.id, action := "UPDATE", payload := .pairs changes }] else [])
    else
      (.serverError ("Failed to update product"), db, [])

/-- Body of `POST /products`: every scalar field is a raw JSON value
(the route coerces them itself); uploaded images arrive as filenames. -/
structure CreateBody where
  name : JVal
  style : JVal
  price : JVal
  inputcost : JVal
  sku : JVal
  description : JVal
  categories : JVal
  stock : JVal
  vendors : Option VendorsIn
  needToOrder : JVal
  images : List String
  deriving DecidableEq, Repr

/-- Fresh serial id for an insert. -/
def nextId (db : List Product) : ℕ :=
  (db.foldl (fun m p => max m p.id) 0) + 1

/-- The expression `req.body.needToOrder ?? 0`: nullish values default to the number 0. -/
def nullishZero (v : JVal) : JVal :=
  match v with
  | .undef => .jnum (.fin 0)
  | .jnull => .jnum (.fin 0)
  | w => w

/-- Endpoint `POST /products`: 400 unless name and price are truthy, then the row
is built with `String(x || "")` for text fields and `toNumberSafe` for
numeric fields; a fractional `Int`-column value makes the insert throw
(500).  On success one CREATE log row is attempted. -/
def createProduct (db : List Product) (body : CreateBody) (now : ℕ) (logOk : Bool) :
    ProdResp × List Product × List LogRow :=
  if body.name.truthy = false || body.price.truthy = false then
    (.badRequest ("Name and price are required"), db, [])
  else
    let stockVal := toNumberSafe body.stock
    let ntoVal := toNumberSafe (nullishZero body.needToOrder)
    if stockVal.den = 1 && ntoVal.den = 1 then
      let product : Product :=
        { id := nextId db,
          name := jsOrEmptyStr body.name,
          style := jsOrEmptyStr body.style,
          price := toNumberSafe body.price,
          inputcost := toNumberSafe body.inputcost,
          sku := jsOrEmptyStr body.sku,
          description := jsOrEmptyStr body.description,
          categories := jsOrEmptyStr body.categories,
          stock := stockVal.num,
          needToOrder := ntoVal.num,
          vendors := match body.vendors with
            | none => []
            | some v => normalizeVendors v,
          images := body.images,
          billing := none,
          createdAt := now,
          deletedAt := none }
      (.okProduct product, db ++ [product],
        if logOk then
          [{ productId := product.id, action := "CREATE OR DUPLICATE",
             payload := .fields (productFields product) }]
        else [])
    else
      (.serverError ("Failed to create product"), db, [])

/-- Endpoint `DELETE /products/:id` (soft delete): find, 404 if absent, stamp
`deletedAt`, attempt one DELETE log row with an empty changes object. -/
def deleteProduct (db : List Product) (pid : ℕ) (now : ℕ) (logOk : Bool) :
    ProdResp × List Product × List LogRow :=
  match db.find? (fun p => p.id = pid) with
  | none => (.notFound ("Product not found"), db, [])
  | some p =>
    (.okMsg ("Product marked as deleted"),
      db.map (fun r => if r.id = pid then { r with deletedAt := some now } else r),
      if logOk then [{ productId := p.id, action := "DELETE", payload := .fields [] }] else [])

/-- Does the string `hay` contain `needle` as a contiguous substring? -/
def strHasSub (hay needle : String) : Bool :=
  charsHasSub hay.toList needle.toList
where
  charsPrefixOf : List Char → List Char → Bool
    | [], _ => true
    | _ :: _, [] => false
    | a :: as, b :: bs => a = b && charsPrefixOf as bs
  charsHasSub : List Char → List Char → Bool
    | [], needle => needle.isEmpty
    | hay@(_ :: t), needle => charsPrefixOf needle hay || charsHasSub t needle

/-! ## Helper lemmas about the JavaScript number model -/

theorem JNum.isNaN_fin (q : ℚ) : (JNum.fin q).isNaN = false := rfl

theorem JNum.leb_fin (a b : ℚ) : (JNum.fin a).leb (.fin b) = decide (a ≤ b) := rfl

theorem JNum.ltb_fin (a b : ℚ) : (JNum.fin a).ltb (.fin b) = decide (a < b) := rfl

theorem JNum.add_fin (a b : ℚ) : (JNum.fin a).add (.fin b) = .fin (a + b) := rfl

theorem JNum.sub_fin (a b : ℚ) : (JNum.fin a).sub (.fin b) = .fin (a - b) := by
  simp [JNum.sub, JNum.neg, JNum.add, sub_eq_add_neg]

theorem JNum.jmin_fin (a b : ℚ) : JNum.jmin (.fin a) (.fin b) = .fin (min a b) := by
  by_cases h : a ≤ b <;> simp [JNum.jmin, JNum.isNaN, JNum.leb, min_def, h]

/-- The accepted-payment shape of the billing pay endpoint on finite
data: the stored paid amount is the clamped `min (p + a) t`. -/
theorem payBilling_fin (rec : BillingRecord) (p t a : ℚ)
    (hp : currentPaidOf rec = .fin p) (ht : rec.cost = .fin t) (ha : 0 < a) :
    payBilling rec (.fin a) =
      .ok { rec with amountPaid := some (.fin (min (p + a) t)),
                     paidAtSet := decide (t ≤ min (p + a) t) }
        (if t ≤ min (p + a) t then "Paid in full!" else "Payment recorded")
        (.fin (t - min (p + a) t)) := by
  unfold payBilling
  rw [hp, ht]
  simp only [JNum.isNaN_fin, JNum.leb_fin, JNum.add_fin, JNum.jmin_fin, JNum.sub_fin,
    Bool.false_or, Bool.or_self, decide_eq_true_eq, decide_eq_false_iff_not, not_le]
  rw [if_neg (by simp [not_le.mpr ha])]
  rfl

/-- The accepted-payment shape of the invoice pay endpoint on finite
data: the stored paid amount is clamped, the status follows the
unclamped `newPaid` as in the source. -/
theorem payInvoice_fin (inv : Invoice) (p t a : ℚ)
    (hp : inv.paidAmount = .fin p) (ht : inv.total = .fin t) (ha : 0 < a) :
    payInvoice inv (.fin a) =
      .ok { inv with paidAmount := .fin (min (p + a) t),
                     status := if t ≤ p + a then "PAID"
                               else if 0 < p + a then "PARTIALLY_PAID" else "PENDING" } := by
  unfold payInvoice
  rw [hp, ht]
  rw [if_neg (by simp [JNum.isNaN_fin, JNum.leb_fin, not_le.mpr ha])]
  simp only [JNum.add_fin]
  have hmin : (if (JNum.fin t).ltb (.fin (p + a)) = true then JNum.fin t else .fin (p + a))
      = .fin (min (p + a) t) := by
    by_cases h : t < p + a
    · simp [JNum.ltb_fin, h, min_eq_right (le_of_lt h)]
    · simp [JNum.ltb_fin, h, min_eq_left (not_lt.mp h)]
  rw [hmin]
  simp [JNum.leb_fin, JNum.ltb_fin]

/-! ## Claim C1 -/

/-- C1: for every accepted payment of amount `a` against an existing
invoice or billing record with current paid amount `p` and total `t`,
the stored paid amount after the operation equals `min (p + a) t`; in
particular the stored paid amount never exceeds the total. -/
theorem c1_paid_amount_clamped (rec : BillingRecord) (inv : Invoice) (p t pi ti a : ℚ)
    (hp : currentPaidOf rec = .fin p) (ht : rec.cost = .fin t)
    (hpi : inv.paidAmount = .fin pi) (hti : inv.total = .fin ti) (ha : 0 < a) :
    (payBilling rec (.fin a)).isOk = true ∧
    (billingAfterPay rec (.fin a)).amountPaid = some (.fin (min (p + a) t)) ∧
    min (p + a) t ≤ t ∧
    (payInvoice inv (.fin a)).isOk = true ∧
    (invoiceAfterPay inv (.fin a)).paidAmount = .fin (min (pi + a) ti) ∧
    min (pi + a) ti ≤ ti := by
  have hb := payBilling_fin rec p t a hp ht ha
  have hi := payInvoice_fin inv pi ti a hpi hti ha
  refine ⟨?_, ?_, min_le_right _ _, ?_, ?_, min_le_right _ _⟩
  · rw [hb]; rfl
  · simp [billingAfterPay, hb]
  · rw [hi]; rfl
  · simp [invoiceAfterPay, hi]

theorem c1_paid_amount_clamped_witness :
    (payBilling ⟨.fin 100, some (.fin 20), false⟩ (.fin 50)).isOk = true ∧
    (billingAfterPay ⟨.fin 100, some (.fin 20), false⟩ (.fin 50)).amountPaid
      = some (.fin (min (20 + 50) 100)) ∧
    min (20 + 50 : ℚ) 100 ≤ 100 ∧
    (payInvoice ⟨.fin 40, .fin 100, "PENDING"⟩ (.fin 50)).isOk = true ∧
    (invoiceAfterPay ⟨.fin 40, .fin 100, "PENDING"⟩ (.fin 50)).paidAmount
      = .fin (min (40 + 50) 100) ∧
    min (40 + 50 : ℚ) 100 ≤ 100 :=
  c1_paid_amount_clamped ⟨.fin 100, some (.fin 20), false⟩ ⟨.fin 40, .fin 100, "PENDING"⟩
    20 100 40 100 50 rfl rfl rfl rfl (by norm_num)

/-! ## Claim C2 -/

/-- C2 counterexample: the `billing_pdfs` table has no status column at
all, and the billing pay endpoint's update writes only `amountPaid` and
`paidAt`; so after this accepted payment against a billing record no
stored status enum exists, contradicting the claim for billing
records. -/
theorem c2_billing_status_counterexample :
    (payBilling ⟨.fin 100, some (.fin 10), false⟩ (.fin 40)).isOk = true ∧
    billingPdfsColumns.contains "status" = false ∧
    payBillingUpdateKeys.contains "status" = false := by
  refine ⟨?_, by decide, by decide⟩
  rw [payBilling_fin ⟨.fin 100, some (.fin 10), false⟩ 10 100 40 rfl rfl (by norm_num)]
  rfl

/-- C2 amended: after every accepted payment against an invoice, the
stored status is exactly "PAID" when the clamped new paid total reaches
the total, "PARTIALLY_PAID" when it is strictly between 0 and the total,
and "PENDING" otherwise; billing records have no status enum — their pay
endpoint instead sets the `paidAt` timestamp exactly when the clamped
paid total reaches the cost. -/
theorem c2_amended_status (rec : BillingRecord) (inv : Invoice) (p t pi ti a : ℚ)
    (hp : currentPaidOf rec = .fin p) (ht : rec.cost = .fin t)
    (hpi : inv.paidAmount = .fin pi) (hti : inv.total = .fin ti) (ha : 0 < a) :
    (invoiceAfterPay inv (.fin a)).status =
      (if ti ≤ min (pi + a) ti then "PAID"
       else if 0 < min (pi + a) ti then "PARTIALLY_PAID" else "PENDING") ∧
    (billingAfterPay rec (.fin a)).paidAtSet = decide (t ≤ min (p + a) t) := by
  have hb := payBilling_fin rec p t a hp ht ha
  have hi := payInvoice_fin inv pi ti a hpi hti ha
  constructor
  · by_cases h1 : ti ≤ pi + a
    · have hm : min (pi + a) ti = ti := min_eq_right h1
      simp [invoiceAfterPay, hi, h1, hm]
    · have hm : min (pi + a) ti = pi + a := min_eq_left (le_of_not_le h1)
      simp [invoiceAfterPay, hi, h1, hm]
  · simp [billingAfterPay, hb]

theorem c2_amended_status_witness :
    (invoiceAfterPay ⟨.fin 40, .fin 100, "PENDING"⟩ (.fin 30)).status =
      (if (100 : ℚ) ≤ min (40 + 30) 100 then "PAID"
       else if (0 : ℚ) < min (40 + 30) 100 then "PARTIALLY_PAID" else "PENDING") ∧
    (billingAfterPay ⟨.fin 100, some (.fin 20), false⟩ (.fin 30)).paidAtSet
      = decide ((100 : ℚ) ≤ min (20 + 30) 100) :=
  c2_amended_status ⟨.fin 100, some (.fin 20), false⟩ ⟨.fin 40, .fin 100, "PENDING"⟩
    20 100 40 100 30 rfl rfl rfl rfl (by norm_num)

/-! ## Claim C3 -/

/-- C3 counterexample: `Infinity` is not a positive finite number, yet
both pay endpoints accept it (their check is only `isNaN || <= 0`) and
clamp the paid amount to the total; the claim demands a 400 rejection.
A JSON body `{"amount": 1e400}` delivers this value. -/
theorem c3_infinite_amount_counterexample :
    JNum.isFinite .inf = false ∧
    payBilling ⟨.fin 100, some (.fin 0), false⟩ .inf =
      .ok ⟨.fin 100, some (.fin 100), true⟩ "Paid in full!" (.fin 0) ∧
    payInvoice ⟨.fin 0, .fin 100, "PENDING"⟩ .inf =
      .ok ⟨.fin 100, .fin 100, "PAID"⟩ := by
  refine ⟨rfl, ?_, ?_⟩
  · unfold payBilling
    norm_num [currentPaidOf, JNum.isNaN, JNum.leb, JNum.add, JNum.jmin, JNum.sub, JNum.neg]
  · unfold payInvoice
    norm_num [JNum.isNaN, JNum.leb, JNum.add, JNum.ltb]

/-- C3 amended: a pay-request amount that is NaN (any non-numeric input)
or not strictly positive is rejected by both pay endpoints with HTTP 400
(InvalidAmount) and the target record's paid amount and status are left
unchanged; a positive *infinite* amount, however, is accepted and clamps
the paid amount to the total. -/
theorem c3_amended_invalid_amount_rejected (rec : BillingRecord) (inv : Invoice) (a : JNum)
    (h : a.isNaN = true ∨ a.leb (.fin 0) = true) :
    payBilling rec a = .badRequest "Invalid payment amount" ∧
    billingAfterPay rec a = rec ∧
    payInvoice inv a = .badRequest "Invalid amount" ∧
    invoiceAfterPay inv a = inv := by
  have hcond : (a.isNaN || a.leb (.fin 0)) = true := by
    rcases h with h | h <;> simp [h]
  have hb : payBilling rec a = .badRequest "Invalid payment amount" := by
    unfold payBilling; rw [if_pos hcond]
  have hi : payInvoice inv a = .badRequest "Invalid amount" := by
    unfold payInvoice; rw [if_pos hcond]
  exact ⟨hb, by simp [billingAfterPay, hb], hi, by simp [invoiceAfterPay, hi]⟩

theorem c3_amended_invalid_amount_rejected_witness :
    payBilling ⟨.fin 100, some (.fin 20), false⟩ (.fin (-3)) =
      .badRequest "Invalid payment amount" ∧
    billingAfterPay ⟨.fin 100, some (.fin 20), false⟩ (.fin (-3)) =
      ⟨.fin 100, some (.fin 20), false⟩ ∧
    payInvoice ⟨.fin 40, .fin 100, "PENDING"⟩ (.fin (-3)) = .badRequest "Invalid amount" ∧
    invoiceAfterPay ⟨.fin 40, .fin 100, "PENDING"⟩ (.fin (-3)) = ⟨.fin 40, .fin 100, "PENDING"⟩ :=
  c3_amended_invalid_amount_rejected ⟨.fin 100, some (.fin 20), false⟩
    ⟨.fin 40, .fin 100, "PENDING"⟩ (.fin (-3)) (Or.inr (by decide))

/-! ## Claim C7 -/

/-- C7: paying a record that is already fully paid (current paid equals
the cost) is accepted without error for any valid amount, and is
idempotent apart from the timestamp: the stored paid amount stays
clamped at the total, `paidAt` is (re)set, and the response reports
`remaining = 0` with the "Paid in full!" message. -/
theorem c7_fully_paid_idempotent (rec : BillingRecord) (t : ℚ) (a : JNum)
    (hp : currentPaidOf rec = .fin t) (ht : rec.cost = .fin t)
    (hn : a.isNaN = false) (hpos : (JNum.fin 0).ltb a = true) :
    payBilling rec a =
      .ok { rec with amountPaid := some (.fin t), paidAtSet := true } "Paid in full!" (.fin 0) := by
  cases a with
  | nan => exact absurd hn (by simp [JNum.isNaN])
  | ninf => exact absurd hpos (by simp [JNum.ltb])
  | inf =>
    unfold payBilling
    rw [hp, ht]
    simp [JNum.isNaN, JNum.leb, JNum.add, JNum.jmin, JNum.sub, JNum.neg]
  | fin b =>
    have hb : 0 < b := by simpa [JNum.ltb_fin] using hpos
    have := payBilling_fin rec t t b hp ht hb
    rw [this]
    have hm : min (t + b) t = t := min_eq_right (le_add_of_nonneg_right hb.le)
    simp [hm]

theorem c7_fully_paid_idempotent_witness :
    payBilling ⟨.fin 100, some (.fin 100), true⟩ (.fin 5) =
      .ok ⟨.fin 100, some (.fin 100), true⟩ "Paid in full!" (.fin 0) :=
  c7_fully_paid_idempotent ⟨.fin 100, some (.fin 100), true⟩ 100 (.fin 5)
    rfl rfl rfl (by decide)

/-! ## Helper lemmas about the stock loops -/

theorem writeStock_eq (db : List Product) (pid : ℕ) (v : JNum) (db2 : List Product)
    (h : writeStock db pid v = some db2) :
    ∃ q : ℚ, v = .fin q ∧ q.den = 1 ∧
      db2 = db.map (fun r => if r.id = pid then { r with stock := q.num } else r) := by
  cases v with
  | fin q =>
    refine ⟨q, rfl, ?_, ?_⟩ <;>
      · simp only [writeStock] at h
        split at h
        · simp_all
        · exact absurd h (by simp)
  | nan => exact absurd h (by simp [writeStock])
  | inf => exact absurd h (by simp [writeStock])
  | ninf => exact absurd h (by simp [writeStock])

theorem writeStock_intCast (db : List Product) (pid : ℕ) (n : ℤ) :
    writeStock db pid (.fin (n : ℚ)) =
      some (db.map (fun r => if r.id = pid then { r with stock := n } else r)) := by
  simp [writeStock, Rat.den_intCast, Rat.num_intCast]

/-- A stock write keeps ids and skus: looking up a SKU afterwards finds
the image of the product the lookup found before. -/
theorem findBySku_writeStock (db db2 : List Product) (pid : ℕ) (v : JNum) (s : String)
    (h : writeStock db pid v = some db2) :
    ∃ q : ℚ, db2 = db.map (fun r => if r.id = pid then { r with stock := q.num } else r) ∧
      findBySku db2 s =
        (findBySku db s).map (fun r => if r.id = pid then { r with stock := q.num } else r) := by
  obtain ⟨q, _, _, hdb⟩ := writeStock_eq db pid v db2 h
  refine ⟨q, hdb, ?_⟩
  subst hdb
  unfold findBySku
  have hpred : ((fun p => decide (p.sku = s)) ∘
      (fun r : Product => if r.id = pid then { r with stock := q.num } else r)) =
      (fun p : Product => decide (p.sku = s)) := by
    funext r
    by_cases hr : r.id = pid <;> simp [Function.comp, hr]
  rw [List.find?_map, hpred]

theorem writeStock_map_id (db db2 : List Product) (pid : ℕ) (v : JNum)
    (h : writeStock db pid v = some db2) :
    db2.map Product.id = db.map Product.id := by
  obtain ⟨q, _, _, hdb⟩ := writeStock_eq db pid v db2 h
  subst hdb
  rw [List.map_map]
  have hid : (Product.id ∘
      (fun r : Product => if r.id = pid then { r with stock := q.num } else r)) = Product.id := by
    funext r
    by_cases hr : r.id = pid <;> simp [Function.comp, hr]
  rw [hid]

theorem findBySku_sku (db : List Product) (s : String) (p : Product)
    (h : findBySku db s = some p) : p.sku = s ∧ p ∈ db := by
  unfold findBySku at h
  exact ⟨by simpa using List.find?_some h, List.mem_of_find?_eq_some h⟩

/-! ## Claim C4 -/

/-- C4 amended: a decrement item whose requested quantity exceeds the
matched product's stock makes the endpoint answer 400 with the stock
untouched, and the error message names the insufficient product's SKU
(or its name when the SKU is empty) — but reports no available or
requested counts. -/
theorem c4_insufficient_rejected (db : List Product) (sku : String) (qty : JNum) (p : Product)
    (hf : findBySku db sku = some p)
    (hlt : ((JNum.fin (p.stock : ℚ)).orZero).ltb qty = true) :
    decrementStock db [⟨sku, qty⟩] = (.insufficient (insufficientMsg p), db) ∧
    (StockResp.insufficient (insufficientMsg p)).status = 400 ∧
    insufficientMsg p = "Insufficient stock for \"" ++ jsOrStr p.sku p.name ++ "\"" := by
  refine ⟨?_, rfl, rfl⟩
  have hloop : decrementLoop db [⟨sku, qty⟩] = (.insufficient (insufficientMsg p), db) := by
    simp [decrementLoop, hf, hlt]
  simpa [decrementStock] using hloop

theorem c4_insufficient_rejected_witness :
    decrementStock
        [{ id := 1, name := "Widget", style := "", sku := "SKU-A", description := "",
           categories := "", price := 0, inputcost := 0, stock := 10, needToOrder := 0,
           vendors := [], images := [], billing := none, createdAt := 0, deletedAt := none }]
        [⟨"SKU-A", .fin 15⟩] =
      (.insufficient (insufficientMsg
        { id := 1, name := "Widget", style := "", sku := "SKU-A", description := "",
          categories := "", price := 0, inputcost := 0, stock := 10, needToOrder := 0,
          vendors := [], images := [], billing := none, createdAt := 0, deletedAt := none }),
       [{ id := 1, name := "Widget", style := "", sku := "SKU-A", description := "",
          categories := "", price := 0, inputcost := 0, stock := 10, needToOrder := 0,
          vendors := [], images := [], billing := none, createdAt := 0, deletedAt := none }]) ∧
    (StockResp.insufficient (insufficientMsg
      { id := 1, name := "Widget", style := "", sku := "SKU-A", description := "",
        categories := "", price := 0, inputcost := 0, stock := 10, needToOrder := 0,
        vendors := [], images := [], billing := none, createdAt := 0, deletedAt := none })).status
      = 400 ∧
    insufficientMsg
      { id := 1, name := "Widget", style := "", sku := "SKU-A", description := "",
        categories := "", price := 0, inputcost := 0, stock := 10, needToOrder := 0,
        vendors := [], images := [], billing := none, createdAt := 0, deletedAt := none }
      = "Insufficient stock for \"" ++ jsOrStr "SKU-A" "Widget" ++ "\"" :=
  c4_insufficient_rejected _ "SKU-A" (.fin 15) _ rfl (by norm_num [JNum.orZero, JNum.ltb_fin])

/-- C4 counterexample: the spec's own scenario (stock 10, decrement 15)
produces the 400 with the stock unchanged, but the response reports
neither the available count (10) nor the requested count (15): the error
string contains no digit of either. -/
theorem c4_no_counts_counterexample :
    decrementStock
        [{ id := 1, name := "Widget", style := "", sku := "SKU-A", description := "",
           categories := "", price := 0, inputcost := 0, stock := 10, needToOrder := 0,
           vendors := [], images := [], billing := none, createdAt := 0, deletedAt := none }]
        [⟨"SKU-A", .fin 15⟩] =
      (.insufficient "Insufficient stock for \"SKU-A\"",
       [{ id := 1, name := "Widget", style := "", sku := "SKU-A", description := "",
          categories := "", price := 0, inputcost := 0, stock := 10, needToOrder := 0,
          vendors := [], images := [], billing := none, createdAt := 0, deletedAt := none }]) ∧
    strHasSub "Insufficient stock for \"SKU-A\"" "10" = false ∧
    strHasSub "Insufficient stock for \"SKU-A\"" "15" = false := by
  refine ⟨?_, by decide, by decide⟩
  norm_num [decrementStock, decrementLoop, findBySku, insufficientMsg, jsOrStr,
    JNum.orZero, JNum.ltb_fin]
  rw [if_neg (by decide)]
  rfl

/-! ## Claim C5 -/

/-- A batch whose prefix succeeds continues from the prefix's state. -/
theorem decrementLoop_ok_append : ∀ (pre : List StockItem) (l : List StockItem)
    (db db1 : List Product) (m : String),
    decrementLoop db pre = (.ok m, db1) →
    decrementLoop db (pre ++ l) = decrementLoop db1 l := by
  intro pre
  induction pre with
  | nil =>
    intro l db db1 m h
    simp only [decrementLoop, Prod.mk.injEq] at h
    rw [List.nil_append, h.2]
  | cons it rest ih =>
    intro l db db1 m h
    rw [List.cons_append]
    simp only [decrementLoop] at h ⊢
    cases hf : findBySku db it.sku with
    | none => simp only [hf] at h; exact absurd h (by simp)
    | some p =>
      simp only [hf] at h ⊢
      by_cases hg : ((JNum.fin (p.stock : ℚ)).orZero).ltb it.qty = true
      · rw [if_pos hg] at h; exact absurd h (by simp)
      · rw [if_neg hg] at h ⊢
        cases hw : writeStock db p.id (((JNum.fin (p.stock : ℚ)).orZero).sub it.qty) with
        | none => simp only [hw] at h; exact absurd h (by simp)
        | some db2 => simp only [hw] at h ⊢; exact ih l db2 db1 m h

/-- A successful prefix only touches the products its own SKUs resolve
to: any other SKU still sees its original stock (distinct row ids keep
the by-id writes from spilling over). -/
theorem decrementLoop_ok_frame : ∀ (pre : List StockItem) (db db1 : List Product) (m : String),
    (db.map Product.id).Nodup →
    decrementLoop db pre = (.ok m, db1) →
    ∀ s : String, (∀ it ∈ pre, it.sku ≠ s) →
    stockOf db1 s = stockOf db s := by
  intro pre
  induction pre with
  | nil =>
    intro db db1 m hnd h s hs
    simp only [decrementLoop, Prod.mk.injEq] at h
    rw [h.2]
  | cons it rest ih =>
    intro db db1 m hnd h s hs
    simp only [decrementLoop] at h
    cases hf : findBySku db it.sku with
    | none => simp only [hf] at h; exact absurd h (by simp)
    | some p =>
      simp only [hf] at h
      by_cases hg : ((JNum.fin (p.stock : ℚ)).orZero).ltb it.qty = true
      · rw [if_pos hg] at h; exact absurd h (by simp)
      · rw [if_neg hg] at h
        cases hw : writeStock db p.id (((JNum.fin (p.stock : ℚ)).orZero).sub it.qty) with
        | none => simp only [hw] at h; exact absurd h (by simp)
        | some db2 =>
          simp only [hw] at h
          have hmapid := writeStock_map_id db db2 p.id _ hw
          have hnd2 : (db2.map Product.id).Nodup := by rw [hmapid]; exact hnd
          have hstep : stockOf db2 s = stockOf db s := by
            obtain ⟨q, hdb2, hfind⟩ := findBySku_writeStock db db2 p.id _ s hw
            unfold stockOf
            rw [hfind]
            cases hr : findBySku db s with
            | none => rfl
            | some r =>
              obtain ⟨hrs, hrmem⟩ := findBySku_sku db s r hr
              obtain ⟨hps, hpmem⟩ := findBySku_sku db it.sku p hf
              have hne : ¬(r.id = p.id) := by
                intro hid
                have hrp : r = p := List.inj_on_of_nodup_map hnd hrmem hpmem hid
                exact hs it (List.mem_cons_self it rest) (by rw [← hps, ← hrp, hrs])
              simp [hne]
          exact (ih db2 db1 m hnd2 h s
            (fun it2 hmem => hs it2 (List.mem_cons_of_mem _ hmem))).trans hstep

/-- C5 amended: a decrement batch is processed sequentially and is not
all-or-nothing.  If the items before the failing one all succeed
(reaching state `db1`) and the next item fails — product not found or
insufficient stock — the whole request answers with that failure and the
final state is exactly `db1`: every earlier item keeps its
already-applied decrement, the failing item and all later items cause no
write, and (provided the row ids are distinct) any SKU not referenced by
an earlier item still has its original stock.  (Without the
distinct-reference proviso the failing item's product may already have
been decremented by an earlier item of the same batch.) -/
theorem c5_sequential_not_transactional (db : List Product) (pre rest : List StockItem)
    (item : StockItem) (db1 : List Product) (m : String)
    (hnd : (db.map Product.id).Nodup)
    (h : decrementLoop db pre = (.ok m, db1)) :
    (findBySku db1 item.sku = none →
      decrementStock db (pre ++ item :: rest) = (.notFound (skuNotFoundMsg item.sku), db1)) ∧
    (∀ p, findBySku db1 item.sku = some p →
      ((JNum.fin (p.stock : ℚ)).orZero).ltb item.qty = true →
      decrementStock db (pre ++ item :: rest) = (.insufficient (insufficientMsg p), db1)) ∧
    (∀ s, (∀ it ∈ pre, it.sku ≠ s) → stockOf db1 s = stockOf db s) := by
  have happ := decrementLoop_ok_append pre (item :: rest) db db1 m h
  have hne : (pre ++ item :: rest).isEmpty = false := by simp
  refine ⟨?_, ?_, ?_⟩
  · intro hf
    unfold decrementStock
    rw [if_neg (by simp [hne]), happ]
    simp [decrementLoop, hf]
  · intro p hf hlt
    unfold decrementStock
    rw [if_neg (by simp [hne]), happ]
    simp [decrementLoop, hf, hlt]
  · intro s hs
    exact decrementLoop_ok_frame pre db db1 m hnd h s hs

/-- Concrete fixture: a product with SKU "A" and the given stock. -/
def prodA (st : ℤ) : Product :=
  { id := 1, name := "Alpha", style := "", sku := "A", description := "", categories := "",
    price := 0, inputcost := 0, stock := st, needToOrder := 0, vendors := [], images := [],
    billing := none, createdAt := 0, deletedAt := none }

/-- Concrete fixture: a product with SKU "B" and the given stock. -/
def prodB (st : ℤ) : Product :=
  { id := 2, name := "Beta", style := "", sku := "B", description := "", categories := "",
    price := 0, inputcost := 0, stock := st, needToOrder := 0, vendors := [], images := [],
    billing := none, createdAt := 0, deletedAt := none }

/-- C5 counterexample: with a batch that references the same product
twice — [(A, 3), (A, 100)] on stock 10 — processing fails at item 1,
yet the product of the failing item does NOT keep its original stock:
item 0's decrement has already been applied (7 ≠ 10), contradicting the
claim's "the products of item i and of every later item have their stock
unchanged". -/
theorem c5_duplicate_sku_counterexample :
    decrementStock [prodA 10] [⟨"A", .fin 3⟩, ⟨"A", .fin 100⟩] =
      (.insufficient "Insufficient stock for \"A\"", [prodA 7]) ∧
    stockOf [prodA 10] "A" = some 10 ∧
    stockOf [prodA 7] "A" = some 7 ∧
    (7 : ℤ) ≠ 10 := by
  refine ⟨?_, by norm_num [stockOf, findBySku, prodA],
    by norm_num [stockOf, findBySku, prodA], by decide⟩
  norm_num [decrementStock, decrementLoop, findBySku, writeStock, insufficientMsg, jsOrStr,
    prodA, JNum.orZero, JNum.sub, JNum.neg, JNum.add, JNum.ltb_fin]
  rw [if_neg (by decide)]
  rfl

theorem c5_sequential_not_transactional_witness :
    (findBySku [prodA 7, prodB 5] (StockItem.mk "B" (.fin 100)).sku = none →
      decrementStock [prodA 10, prodB 5]
          ([⟨"A", .fin 3⟩] ++ ⟨"B", .fin 100⟩ :: []) =
        (.notFound (skuNotFoundMsg (StockItem.mk "B" (.fin 100)).sku), [prodA 7, prodB 5])) ∧
    (∀ p, findBySku [prodA 7, prodB 5] (StockItem.mk "B" (.fin 100)).sku = some p →
      ((JNum.fin (p.stock : ℚ)).orZero).ltb (StockItem.mk "B" (.fin 100)).qty = true →
      decrementStock [prodA 10, prodB 5]
          ([⟨"A", .fin 3⟩] ++ ⟨"B", .fin 100⟩ :: []) =
        (.insufficient (insufficientMsg p), [prodA 7, prodB 5])) ∧
    (∀ s, (∀ it ∈ [StockItem.mk "A" (.fin 3)], it.sku ≠ s) →
      stockOf [prodA 7, prodB 5] s = stockOf [prodA 10, prodB 5] s) :=
  c5_sequential_not_transactional [prodA 10, prodB 5] [⟨"A", .fin 3⟩] []
    ⟨"B", .fin 100⟩ [prodA 7, prodB 5] "Stock decremented successfully"
    (by norm_num [prodA, prodB])
    (by norm_num [decrementLoop, findBySku, writeStock, prodA, prodB,
      JNum.orZero, JNum.sub, JNum.neg, JNum.add, JNum.ltb_fin])

/-! ## Claim C6 -/

/-- Every product row holds a non-negative stock. -/
def NonNegIntStock (db : List Product) : Prop := ∀ p ∈ db, 0 ≤ p.stock

/-- A successful stock write of a non-negative value preserves the
invariant. -/
theorem nonneg_writeStock (db db2 : List Product) (pid : ℕ) (v : JNum)
    (h : writeStock db pid v = some db2)
    (hv : ∀ q : ℚ, v = .fin q → 0 ≤ q) (hdb : NonNegIntStock db) : NonNegIntStock db2 := by
  obtain ⟨q, hvq, hden, hdb2⟩ := writeStock_eq db pid v db2 h
  subst hdb2
  intro p hp
  obtain ⟨r, hr, hrp⟩ := List.mem_map.mp hp
  subst hrp
  by_cases hid : r.id = pid
  · rw [if_pos hid]
    exact Rat.num_nonneg.mpr (hv q hvq)
  · rw [if_neg hid]
    exact hdb r hr

/-- The decrement loop preserves non-negative stock on every input: the
shortage guard bounds the only written value, and non-integer values
make the write fail before touching the row. -/
theorem decrementLoop_nonneg : ∀ (items : List StockItem) (db : List Product),
    NonNegIntStock db → NonNegIntStock (decrementLoop db items).2 := by
  intro items
  induction items with
  | nil => intro db h; simpa [decrementLoop] using h
  | cons it rest ih =>
    intro db h
    simp only [decrementLoop]
    cases hf : findBySku db it.sku with
    | none => simpa using h
    | some p =>
      simp only []
      by_cases hg : ((JNum.fin (p.stock : ℚ)).orZero).ltb it.qty = true
      · rw [if_pos hg]; simpa using h
      · rw [if_neg hg]
        cases hw : writeStock db p.id (((JNum.fin (p.stock : ℚ)).orZero).sub it.qty) with
        | none => simpa using h
        | some db2 =>
          simp only []
          apply ih
          apply nonneg_writeStock db db2 p.id _ hw _ h
          intro q hq
          obtain ⟨hps, hpmem⟩ := findBySku_sku db it.sku p hf
          have hstock : (0 : ℚ) ≤ (p.stock : ℚ) := by exact_mod_cast h p hpmem
          cases hqty : it.qty with
          | nan =>
            rw [hqty] at hq
            exact absurd hq (by simp [JNum.orZero, JNum.sub, JNum.neg, JNum.add])
          | inf =>
            rw [hqty] at hq
            exact absurd hq (by simp [JNum.orZero, JNum.sub, JNum.neg, JNum.add])
          | ninf =>
            rw [hqty] at hq
            exact absurd hq (by simp [JNum.orZero, JNum.sub, JNum.neg, JNum.add])
          | fin qq =>
            rw [hqty] at hq hg
            have hval : (p.stock : ℚ) + -qq = q := by
              simpa [JNum.orZero, JNum.sub, JNum.neg, JNum.add] using hq
            have hle : qq ≤ (p.stock : ℚ) := by
              have := hg
              simp only [JNum.orZero, JNum.ltb_fin, decide_eq_true_eq] at this
              exact not_lt.mp this
            linarith

/-- The increment loop preserves non-negative stock whenever all the
requested quantities are non-negative. -/
theorem incrementLoop_nonneg : ∀ (items : List StockItem) (db : List Product),
    NonNegIntStock db → (∀ it ∈ items, (JNum.fin 0).leb it.qty = true) →
    NonNegIntStock (incrementLoop db items).2 := by
  intro items
  induction items with
  | nil => intro db h _; simpa [incrementLoop] using h
  | cons it rest ih =>
    intro db h hq
    simp only [incrementLoop]
    cases hf : findBySku db it.sku with
    | none => simpa using h
    | some p =>
      simp only []
      cases hw : writeStock db p.id (((JNum.fin (p.stock : ℚ)).orZero).add it.qty) with
      | none => simpa using h
      | some db2 =>
        simp only []
        apply ih db2 _ (fun it2 hmem => hq it2 (List.mem_cons_of_mem _ hmem))
        apply nonneg_writeStock db db2 p.id _ hw _ h
        intro q hqeq
        obtain ⟨hps, hpmem⟩ := findBySku_sku db it.sku p hf
        have hstock : (0 : ℚ) ≤ (p.stock : ℚ) := by exact_mod_cast h p hpmem
        have hqpos := hq it (List.mem_cons_self it rest)
        cases hqty : it.qty with
        | nan =>
          rw [hqty] at hqeq
          exact absurd hqeq (by simp [JNum.orZero, JNum.add])
        | inf =>
          rw [hqty] at hqeq
          exact absurd hqeq (by simp [JNum.orZero, JNum.add])
        | ninf =>
          rw [hqty] at hqpos
          exact absurd hqpos (by simp [JNum.leb])
        | fin qq =>
          rw [hqty] at hqeq hqpos
          have hval : (p.stock : ℚ) + qq = q := by
            simpa [JNum.orZero, JNum.add] using hqeq
          have hqq : (0 : ℚ) ≤ qq := by
            simpa [JNum.leb_fin] using hqpos
          linarith

/-- C6 amended: the decrement endpoint preserves non-negative stock for
every request input (its shortage guard bounds every applied delta), and
the increment endpoint preserves it for non-negative quantities; but the
increment endpoints and the product update perform no sign validation,
so a negative increment quantity (or a negative update value) is
accepted and can drive a stock negative. -/
theorem c6_amended_stock_nonneg (db : List Product) (items incItems : List StockItem)
    (h : NonNegIntStock db)
    (hinc : ∀ it ∈ incItems, (JNum.fin 0).leb it.qty = true) :
    NonNegIntStock (decrementStock db items).2 ∧
    NonNegIntStock (incrementStock db incItems).2 := by
  constructor
  · unfold decrementStock
    by_cases hi : items.isEmpty = true
    · rw [if_pos hi]; exact h
    · rw [if_neg hi]; exact decrementLoop_nonneg items db h
  · unfold incrementStock
    by_cases hi : incItems.isEmpty = true
    · rw [if_pos hi]; exact h
    · rw [if_neg hi]; exact incrementLoop_nonneg incItems db h hinc

theorem c6_amended_stock_nonneg_witness :
    NonNegIntStock (decrementStock [prodA 10] [⟨"A", .fin 3⟩]).2 ∧
    NonNegIntStock (incrementStock [prodA 10] [⟨"B", .fin 4⟩]).2 :=
  c6_amended_stock_nonneg [prodA 10] [⟨"A", .fin 3⟩] [⟨"B", .fin 4⟩]
    (by intro p hp; simp only [List.mem_singleton] at hp; subst hp; norm_num [prodA])
    (by intro it hmem; simp only [List.mem_singleton] at hmem; subst hmem; decide)

/-- C6 counterexample: the increment endpoint accepts a negative
quantity; on a database whose only product has stock 10 ≥ 0 it answers
200 and stores stock −90 < 0, so the claimed invariant fails for
accepted increment inputs. -/
theorem c6_negative_increment_counterexample :
    NonNegIntStock [prodA 10] ∧
    incrementStock [prodA 10] [⟨"A", .fin (-100)⟩] =
      (.ok "Stock incremented successfully", [prodA (-90)]) ∧
    (prodA (-90)).stock < 0 := by
  refine ⟨?_, ?_, by norm_num [prodA]⟩
  · intro p hp
    simp only [List.mem_singleton] at hp
    subst hp
    norm_num [prodA]
  · norm_num [incrementStock, incrementLoop, findBySku, writeStock, prodA,
      JNum.orZero, JNum.add]

/-! ## Claim C9 -/

/-- C9: the change-log helper swallows its own failure (`logOk = false`
models a throwing `prisma.productChangeLog.create`), so the parent
create, update and delete keep exactly the same response and database
state whether or not the audit write succeeds; only the set of appended
log rows differs. -/
theorem c9_log_failure_never_affects_parent (db : List Product) (pid : ℕ) (body : PutBody)
    (cb : CreateBody) (now : ℕ) (logOk : Bool) :
    (putProduct db pid body logOk).1 = (putProduct db pid body true).1 ∧
    (putProduct db pid body logOk).2.1 = (putProduct db pid body true).2.1 ∧
    (createProduct db cb now logOk).1 = (createProduct db cb now true).1 ∧
    (createProduct db cb now logOk).2.1 = (createProduct db cb now true).2.1 ∧
    (deleteProduct db pid now logOk).1 = (deleteProduct db pid now true).1 ∧
    (deleteProduct db pid now logOk).2.1 = (deleteProduct db pid now true).2.1 := by
  refine ⟨?_, ?_, ?_, ?_, ?_, ?_⟩
  · cases hf : db.find? (fun p => p.id = pid) with
    | none => simp [putProduct, hf]
    | some oldP =>
      simp only [putProduct, hf]
      split_ifs <;> rfl
  · cases hf : db.find? (fun p => p.id = pid) with
    | none => simp [putProduct, hf]
    | some oldP =>
      simp only [putProduct, hf]
      split_ifs <;> rfl
  · simp only [createProduct]
    split_ifs <;> rfl
  · simp only [createProduct]
    split_ifs <;> rfl
  · cases hf : db.find? (fun p => p.id = pid) with
    | none => simp [deleteProduct, hf]
    | some p =>
      simp only [deleteProduct, hf]
  · cases hf : db.find? (fun p => p.id = pid) with
    | none => simp [deleteProduct, hf]
    | some p =>
      simp only [deleteProduct, hf]

/-! ## Claim C10 -/

/-- The claim's premise: the body value is empty-ish (undefined, null,
empty string) or does not coerce to a finite number. -/
def nonNumericOrEmpty (v : JVal) : Prop :=
  (jsToNumber v).isFinite = false ∨ v = .undef ∨ v = .jnull ∨ v = .jstr ""

instance (v : JVal) : Decidable (nonNumericOrEmpty v) := by
  unfold nonNumericOrEmpty; infer_instance

theorem toNumberSafe_zero (v : JVal) (h : nonNumericOrEmpty v) : toNumberSafe v = 0 := by
  unfold toNumberSafe
  by_cases he : (v = .undef || v = .jnull || v = .jstr "") = true
  · rw [if_pos (by simpa using he)]
  · rw [if_neg (by simpa using he)]
    rcases h with h | h | h | h
    · cases hn : jsToNumber v <;> simp_all [JNum.isFinite]
    all_goals (subst h; simp at he)

theorem needToOrderVal_zero (v : JVal) (h : nonNumericOrEmpty v) :
    toNumberSafe (nullishZero v) = 0 := by
  cases v with
  | undef => simp [nullishZero, toNumberSafe, jsToNumber]
  | jnull => simp [nullishZero, toNumberSafe, jsToNumber]
  | jbool b => exact toNumberSafe_zero _ h
  | jnum n => exact toNumberSafe_zero _ h
  | jstr s => exact toNumberSafe_zero _ h

/-- C10: whenever `name` and `price` are truthy, the create endpoint
never answers a 400 validation error, whatever the numeric fields hold;
and when `price`, `inputcost`, `stock` and `needToOrder` are non-numeric
or empty they are silently coerced to 0 and the product is created
successfully with those zeros stored. -/
theorem c10_malformed_numerics_coerced (db : List Product) (cb : CreateBody)
    (now : ℕ) (logOk : Bool)
    (hname : cb.name.truthy = true) (hprice : cb.price.truthy = true)
    (hpr : nonNumericOrEmpty cb.price) (hic : nonNumericOrEmpty cb.inputcost)
    (hst : nonNumericOrEmpty cb.stock) (hnto : nonNumericOrEmpty cb.needToOrder) :
    (∀ m, (createProduct db cb now logOk).1 ≠ .badRequest m) ∧
    ∃ p : Product,
      (createProduct db cb now logOk).1 = .okProduct p ∧
      (createProduct db cb now logOk).2.1 = db ++ [p] ∧
      p.price = 0 ∧ p.inputcost = 0 ∧ p.stock = 0 ∧ p.needToOrder = 0 := by
  unfold createProduct
  rw [if_neg (by simp [hname, hprice])]
  rw [toNumberSafe_zero _ hst, needToOrderVal_zero _ hnto,
    toNumberSafe_zero _ hpr, toNumberSafe_zero _ hic]
  rw [if_pos (by norm_num)]
  refine ⟨fun m => by simp, ?_⟩
  refine ⟨_, rfl, rfl, rfl, rfl, ?_, ?_⟩ <;> norm_num

/-! ## Claim C8 -/

/-- The `!==` test of the diff loop, characterised: a field pair enters
the change log iff its values differ or both sides are object-typed
(arrays, `Decimal`s and `Date`s from two query results are distinct
references even when equal in value). -/
theorem jsNeqFresh_characterisation (o n : FVal) :
    jsNeqFresh o n = (decide (o ≠ n) || (o.isObjKind && n.isObjKind)) := by
  cases o <;> cases n <;> simp [jsNeqFresh, FVal.isObjKind]

/-- C8 amended: every successful product update attempts exactly one
change-log row, whose diff records a `(key, old, new)` entry exactly for
the fields whose values differ *or* whose runtime representation is an
object (arrays, `Decimal`, `Date`): those are compared by reference and
always enter the diff, even when their values are unchanged. -/
theorem c8_update_logs_reference_diff (db : List Product) (pid : ℕ) (body : PutBody)
    (oldP : Product)
    (hf : db.find? (fun p => p.id = pid) = some oldP)
    (hs : putStockWriteOk body = true) :
    (putProduct db pid body true).1 = .okProduct (applyPut oldP body) ∧
    (putProduct db pid body true).2.2 =
      [{ productId := (applyPut oldP body).id, action := "UPDATE",
         payload := .pairs (diffChanges oldP (applyPut oldP body)) }] ∧
    (∀ o n : FVal, jsNeqFresh o n = (decide (o ≠ n) || (o.isObjKind && n.isObjKind))) := by
  refine ⟨?_, ?_, jsNeqFresh_characterisation⟩ <;>
    · simp only [putProduct, hf]
      rw [if_pos hs]
      all_goals simp

theorem c8_update_logs_reference_diff_witness :
    (putProduct [prodA 10] 1 ⟨some "Gamma", none, none, none, none, none, none, none, none, []⟩
        true).1 =
      .okProduct (applyPut (prodA 10)
        ⟨some "Gamma", none, none, none, none, none, none, none, none, []⟩) ∧
    (putProduct [prodA 10] 1 ⟨some "Gamma", none, none, none, none, none, none, none, none, []⟩
        true).2.2 =
      [{ productId := (applyPut (prodA 10)
            ⟨some "Gamma", none, none, none, none, none, none, none, none, []⟩).id,
         action := "UPDATE",
         payload := .pairs (diffChanges (prodA 10) (applyPut (prodA 10)
            ⟨some "Gamma", none, none, none, none, none, none, none, none, []⟩)) }] ∧
    (∀ o n : FVal, jsNeqFresh o n = (decide (o ≠ n) || (o.isObjKind && n.isObjKind))) :=
  c8_update_logs_reference_diff [prodA 10] 1
    ⟨some "Gamma", none, none, none, none, none, none, none, none, []⟩ (prodA 10) rfl rfl

/-- C8 counterexample: an update request that provides no field at all
leaves every value unchanged, yet the logged diff is not empty — the
object-typed fields (`inputcost`, `vendors`, `images`, `createdAt`)
appear with identical old and new values, so the diff does not contain
exactly the fields whose values actually changed. -/
theorem c8_unchanged_fields_logged_counterexample :
    applyPut (prodA 10) ⟨none, none, none, none, none, none, none, none, none, []⟩ =
      prodA 10 ∧
    (putProduct [prodA 10] 1 ⟨none, none, none, none, none, none, none, none, none, []⟩
        true).2.2 =
      [{ productId := 1, action := "UPDATE",
         payload := .pairs
           [("inputcost", .dec 0, .dec 0), ("vendors", .arr [], .arr []),
            ("images", .arr [], .arr []), ("createdAt", .date 0, .date 0)] }] := by
  constructor
  · decide
  · decide

theorem c10_malformed_numerics_coerced_witness :
    (∀ m, (createProduct []
        { name := .jstr "Widget", style := .jstr "", price := .jstr "abc",
          inputcost := .jnull, sku := .jstr "", description := .jstr "",
          categories := .jstr "", stock := .jstr "oops", vendors := none,
          needToOrder := .undef, images := [] } 0 true).1 ≠ .badRequest m) ∧
    ∃ p : Product,
      (createProduct []
        { name := .jstr "Widget", style := .jstr "", price := .jstr "abc",
          inputcost := .jnull, sku := .jstr "", description := .jstr "",
          categories := .jstr "", stock := .jstr "oops", vendors := none,
          needToOrder := .undef, images := [] } 0 true).1 = .okProduct p ∧
      (createProduct []
        { name := .jstr "Widget", style := .jstr "", price := .jstr "abc",
          inputcost := .jnull, sku := .jstr "", description := .jstr "",
          categories := .jstr "", stock := .jstr "oops", vendors := none,
          needToOrder := .undef, images := [] } 0 true).2.1 = [] ++ [p] ∧
      p.price = 0 ∧ p.inputcost = 0 ∧ p.stock = 0 ∧ p.needToOrder = 0 :=
  c10_malformed_numerics_coerced [] _ 0 true (by decide) (by decide)
    (by decide) (by decide) (by decide) (by decide)

end POS
